import Mathlib

/-!
Verification development for the Multi-PDF-Chatbot repository.

The visible source (`src/app.py`) is the Streamlit presentation layer.  Per the
spec (§1, §2), the document-to-answer core — Document Ingestor, Embedding
Provider, Vector Store, LLM Provider, Conversation Manager and Chat
Orchestrator — "does not exist in the visible source but is the necessary
implementation behind the calls the presentation layer makes".  Those
components are therefore modelled from the spec (each such definition carries a
doc comment starting `Modelled from the spec:`), while the functions of
`src/app.py` are embedded directly from the Python source.
-/

/-- Modelled from the spec (§3, Data Model): a `Chunk` record
`{id, text, source_filename, page_number, chunk_index, embedding_vector}`,
immutable once stored.  Vector components are modelled as rationals. -/
structure Chunk where
  id : Nat
  text : String
  source_filename : String
  page_number : Nat
  chunk_index : Nat
  embedding_vector : List ℚ
deriving DecidableEq

/-- Modelled from the spec (§3, §4.3): the derived, read-only store-statistics
view `{total_documents}`. -/
structure StoreStats where
  total_documents : Nat
deriving DecidableEq

/-- Modelled from the spec (§3, §4.3): the Vector Store owns the chunk records;
the embedding dimensionality is fixed per embedding-provider configuration
(`dim`), and the store fails when a vector of mismatched dimensionality is
inserted.  Insertion order of `chunks` is the order of the list. -/
structure VectorStore where
  dim : Nat
  chunks : List Chunk
deriving DecidableEq

namespace VectorStore

/-- Modelled from the spec (§4.3): `add(chunks)` inserts all chunks, failing
with a `StoreError` if any vector has dimensionality different from the
the configured store dimensionality. -/
def add (st : VectorStore) (cs : List Chunk) : Except String VectorStore :=
  if cs.all (fun c => c.embedding_vector.length = st.dim) then
    .ok { st with chunks := st.chunks ++ cs }
  else
    .error "StoreError: embedding dimensionality mismatch"

/-- Modelled from the spec (§4.3): `stats()` is the count of stored chunks,
computed live from the current store content (a pure function of `chunks`,
nothing cached). -/
def stats (st : VectorStore) : StoreStats :=
  ⟨st.chunks.length⟩

/-- Ranking relation used by `search`: `simGE a b` holds when the similarity
score of `a` is at least that of `b` (descending order). -/
def simGE (a b : Chunk × ℚ) : Prop := b.2 ≤ a.2

instance : DecidableRel simGE := fun a b => inferInstanceAs (Decidable (b.2 ≤ a.2))

instance : IsTotal (Chunk × ℚ) simGE := ⟨fun a b => le_total b.2 a.2⟩

instance : IsTrans (Chunk × ℚ) simGE := ⟨fun _ _ _ h1 h2 => le_trans h2 h1⟩

/-- Modelled from the spec (§4.3): `search(query_vector, k)` scores every
stored chunk against the query vector, ranks by descending similarity with
ties broken by insertion order (insertion sort is stable, so the
earlier-inserted chunk stays first), and returns up to `k` results.  The spec
prescribes cosine similarity; the scoring function is taken as the parameter
`sim` because the ranking/length contract is independent of the particular
score.  The function is total: an empty store yields `[]`, never an error. -/
def search (sim : List ℚ → List ℚ → ℚ) (st : VectorStore) (q : List ℚ) (k : Nat) :
    List (Chunk × ℚ) :=
  (List.insertionSort simGE (st.chunks.map (fun c => (c, sim c.embedding_vector q)))).take k

end VectorStore

/-- Dot product of two rational vectors; used as a concrete similarity score
in witnesses. -/
def dotScore (a b : List ℚ) : ℚ :=
  (List.zipWith (fun x y => x * y) a b).sum

/-- Sample chunk used by concrete witnesses. -/
def sampleChunk : Chunk :=
  ⟨0, "alpha", "a.pdf", 1, 0, [1, 0]⟩

/-- Second sample chunk used by concrete witnesses. -/
def sampleChunk2 : Chunk :=
  ⟨1, "beta", "b.pdf", 1, 1, [0, 1]⟩

/-- C1: for every store contents, query vector and `k`, the sequence returned
by the Vector Store `search` is sorted by non-increasing similarity score,
and whenever `k` is at least the number of stored chunks the result length
equals the store size (`stats().total_documents`). -/
theorem search_sorted_and_length_complete (sim : List ℚ → List ℚ → ℚ)
    (st : VectorStore) (q : List ℚ) (k : Nat) :
    List.Sorted VectorStore.simGE (VectorStore.search sim st q k) ∧
      (st.stats.total_documents ≤ k →
        (VectorStore.search sim st q k).length = st.stats.total_documents) := by
  constructor
  · exact List.Pairwise.sublist (List.take_sublist _ _)
      (List.sorted_insertionSort VectorStore.simGE _)
  · intro h
    simp only [VectorStore.search, List.length_take, List.length_insertionSort,
      List.length_map]
    simp only [VectorStore.stats] at h ⊢
    exact Nat.min_eq_right h

/-- Witness for C1 at a concrete two-chunk store with `k = 3`. -/
theorem search_sorted_and_length_complete_witness :
    (⟨2, [sampleChunk, sampleChunk2]⟩ : VectorStore).stats.total_documents ≤ 3 ∧
      (VectorStore.search dotScore ⟨2, [sampleChunk, sampleChunk2]⟩ [1, 0] 3).length =
        (⟨2, [sampleChunk, sampleChunk2]⟩ : VectorStore).stats.total_documents :=
  ⟨by decide,
    (search_sorted_and_length_complete dotScore ⟨2, [sampleChunk, sampleChunk2]⟩ [1, 0] 3).2
      (by decide)⟩

/-- C8: for every query vector and every `k`, `search` on an empty Vector
Store returns the empty sequence; the function is total, so no error is
raised. -/
theorem search_empty_store_eq_nil (sim : List ℚ → List ℚ → ℚ) (d : Nat)
    (q : List ℚ) (k : Nat) :
    VectorStore.search sim ⟨d, []⟩ q k = [] := by
  simp [VectorStore.search]

/-- C2: for every store state and every non-empty chunk batch, after a
successful `add` the value of `stats().total_documents` equals its value
before the `add` plus the batch size.  `stats` is a pure function of the
current store content, so the equality holds against the live store, not a
cache. -/
theorem stats_total_documents_after_add (st st' : VectorStore) (cs : List Chunk)
    (_hne : cs ≠ []) (h : st.add cs = .ok st') :
    st'.stats.total_documents = st.stats.total_documents + cs.length := by
  unfold VectorStore.add at h
  split at h
  · cases h
    simp [VectorStore.stats]
  · cases h

/-- Witness for C2: adding one chunk to an empty store raises the count from
0 to 1. -/
theorem stats_total_documents_after_add_witness :
    ([sampleChunk] ≠ ([] : List Chunk)) ∧
      (VectorStore.add ⟨2, []⟩ [sampleChunk] = .ok ⟨2, [sampleChunk]⟩) ∧
      ((⟨2, [sampleChunk]⟩ : VectorStore).stats.total_documents =
        (⟨2, []⟩ : VectorStore).stats.total_documents + [sampleChunk].length) :=
  ⟨by decide, by rfl,
    stats_total_documents_after_add ⟨2, []⟩ ⟨2, [sampleChunk]⟩ [sampleChunk]
      (by decide) (by rfl)⟩

/-- Modelled from the spec (§3): the role of a conversation turn. -/
inductive Role where
  | user : Role
  | assistant : Role
deriving DecidableEq

/-- Modelled from the spec (§3): a `ConversationTurn`
`{role, content, timestamp, retrieved_chunks?, is_error}`.  The optional
`retrieved_chunks` field is modelled as the list of retrieved chunk ids. -/
structure ConversationTurn where
  role : Role
  content : String
  timestamp : String
  retrieved_chunks : Option (List Nat)
  is_error : Bool
deriving DecidableEq

/-- Modelled from the spec (§3): a `Conversation`
`{id, turns: ordered sequence of ConversationTurn, created_at}`. -/
structure Conversation where
  id : Nat
  turns : List ConversationTurn
  created_at : String
deriving DecidableEq

/-- Modelled from the spec (§6, Persisted layout): the durable serialized form
of persisted records — a small JSON-like value type; the exact schema is an
implementation choice but must preserve the field sets losslessly. -/
inductive PValue where
  | pstr : String → PValue
  | pnat : Nat → PValue
  | pbool : Bool → PValue
  | plist : List PValue → PValue
  | pnull : PValue

/-- Serialization of a turn role. -/
def encodeRole : Role → PValue
  | .user => .pstr "user"
  | .assistant => .pstr "assistant"

/-- Deserialization of a turn role. -/
def decodeRole : PValue → Option Role
  | .pstr "user" => some .user
  | .pstr "assistant" => some .assistant
  | _ => none

/-- Serialization of the optional retrieved-chunk id list. -/
def encodeRetrieved : Option (List Nat) → PValue
  | none => .pnull
  | some l => .plist (l.map .pnat)

/-- Deserialization of a single natural number. -/
def decodeNat : PValue → Option Nat
  | .pnat n => some n
  | _ => none

/-- Deserialization of a list of natural numbers. -/
def decodeNats : List PValue → Option (List Nat)
  | [] => some []
  | v :: vs => do
      let n ← decodeNat v
      let ns ← decodeNats vs
      some (n :: ns)

/-- Deserialization of the optional retrieved-chunk id list. -/
def decodeRetrieved : PValue → Option (Option (List Nat))
  | .pnull => some none
  | .plist vs => (decodeNats vs).map some
  | _ => none

/-- Serialization of a `ConversationTurn`, preserving every field of §3. -/
def encodeTurn (t : ConversationTurn) : PValue :=
  .plist [encodeRole t.role, .pstr t.content, .pstr t.timestamp,
    encodeRetrieved t.retrieved_chunks, .pbool t.is_error]

/-- Deserialization of a `ConversationTurn`. -/
def decodeTurn : PValue → Option ConversationTurn
  | .plist [r, .pstr content, .pstr ts, rc, .pbool e] => do
      let role ← decodeRole r
      let chunks ← decodeRetrieved rc
      some ⟨role, content, ts, chunks, e⟩
  | _ => none

/-- Deserialization of an ordered list of turns. -/
def decodeTurns : List PValue → Option (List ConversationTurn)
  | [] => some []
  | v :: vs => do
      let t ← decodeTurn v
      let ts ← decodeTurns vs
      some (t :: ts)

/-- Modelled from the spec (§4.5, §6): `save()` persists the active
full turn history of a conversation in the durable serialized form. -/
def saveConversation (c : Conversation) : PValue :=
  .plist [.pnat c.id, .pstr c.created_at, .plist (c.turns.map encodeTurn)]

/-- Modelled from the spec (§6): reloading a persisted conversation from the
durable serialized form. -/
def loadConversation : PValue → Option Conversation
  | .plist [.pnat i, .pstr created, .plist ts] => do
      let turns ← decodeTurns ts
      some ⟨i, turns, created⟩
  | _ => none

/-- Modelled from the spec (§3, §4.5): the Conversation Manager owns the
active conversation and the persisted history (a map from conversation id to
its persisted record, modelled as an association list). -/
structure CMState where
  active : Option Conversation
  persisted : List (Nat × PValue)

/-- Update-or-insert of a persisted record keyed by conversation id: saving
replaces the record with the same id rather than appending a duplicate. -/
def upsert (i : Nat) (v : PValue) : List (Nat × PValue) → List (Nat × PValue)
  | [] => [(i, v)]
  | (j, w) :: rest => if j = i then (i, v) :: rest else (j, w) :: upsert i v rest

namespace ConvManager

/-- Modelled from the spec (§4.5): `save()` persists the full turn history of
the active conversation, keyed by its id; with no active conversation it
leaves the persisted state untouched. -/
def save (st : CMState) : CMState :=
  match st.active with
  | none => st
  | some c => { st with persisted := upsert c.id (saveConversation c) st.persisted }

/-- Modelled from the spec (§4.5): `record_turn(turn)` appends to the active
conversation and fails with `NoActiveConversationError` if none is active. -/
def record_turn (st : CMState) (t : ConversationTurn) : Except String CMState :=
  match st.active with
  | none => .error "NoActiveConversationError"
  | some c => .ok { st with active := some { c with turns := c.turns ++ [t] } }

end ConvManager

/-- Re-upserting the same record is a no-op on an already-upserted list. -/
theorem upsert_self_upsert (i : Nat) (v : PValue) (l : List (Nat × PValue)) :
    upsert i v (upsert i v l) = upsert i v l := by
  induction l with
  | nil => simp [upsert]
  | cons hd tl ih =>
      obtain ⟨j, w⟩ := hd
      by_cases hj : j = i
      · simp [upsert, hj]
      · simp [upsert, hj, ih]

/-- C6: for every state with an active conversation, calling `save()` twice
with no turns recorded in between leaves the persisted state identical to the
state after the first save — no duplicate records. -/
theorem conversation_save_idempotent (st : CMState) (c : Conversation)
    (h : st.active = some c) :
    ConvManager.save (ConvManager.save st) = ConvManager.save st := by
  simp [ConvManager.save, h, upsert_self_upsert]

/-- Sample turn used by concrete witnesses. -/
def sampleTurn : ConversationTurn :=
  ⟨.user, "hello", "2026-10-12T00:00:00", none, false⟩

/-- Sample conversation used by concrete witnesses. -/
def sampleConv : Conversation :=
  ⟨7, [sampleTurn], "2026-10-12T00:00:00"⟩

/-- Witness for C6 at a concrete one-turn active conversation. -/
theorem conversation_save_idempotent_witness :
    (CMState.mk (some sampleConv) []).active = some sampleConv ∧
      ConvManager.save (ConvManager.save (CMState.mk (some sampleConv) [])) =
        ConvManager.save (CMState.mk (some sampleConv) []) :=
  ⟨rfl, conversation_save_idempotent (CMState.mk (some sampleConv) []) sampleConv rfl⟩

/-- Deserializing a serialized id list restores it exactly. -/
theorem decodeNats_map_pnat (l : List Nat) :
    decodeNats (l.map PValue.pnat) = some l := by
  induction l with
  | nil => rfl
  | cons x xs ih => simp [decodeNats, decodeNat, ih]

/-- Deserializing a serialized turn restores every field exactly. -/
theorem decodeTurn_encodeTurn (t : ConversationTurn) :
    decodeTurn (encodeTurn t) = some t := by
  obtain ⟨r, content, ts, rc, e⟩ := t
  cases r <;> cases rc <;>
    simp [encodeTurn, decodeTurn, encodeRole, decodeRole, encodeRetrieved,
      decodeRetrieved, decodeNats_map_pnat]

/-- Deserializing a serialized turn sequence restores it in order. -/
theorem decodeTurns_map_encodeTurn (ts : List ConversationTurn) :
    decodeTurns (ts.map encodeTurn) = some ts := by
  induction ts with
  | nil => rfl
  | cons t rest ih => simp [decodeTurns, decodeTurn_encodeTurn, ih]

/-- C7: saving a conversation to the persisted form and reloading it
reproduces the identical conversation — in particular the identical ordered
turn sequence, with every `ConversationTurn` field preserved losslessly. -/
theorem conversation_save_load_roundtrip (c : Conversation) :
    loadConversation (saveConversation c) = some c := by
  obtain ⟨i, turns, created⟩ := c
  simp [saveConversation, loadConversation, decodeTurns_map_encodeTurn]

/-- Modelled from the spec (§6): an uploaded file `{bytes, filename}`; the raw
bytes are modelled as a string. -/
structure PDFFile where
  bytes : String
  filename : String
deriving DecidableEq

/-- Value held in one field of a per-file result record. -/
inductive EntryVal where
  | vstr : String → EntryVal
  | vnat : Nat → EntryVal
deriving DecidableEq

/-- Association-list record mapping field names to values — a Python dict as
consumed by `src/app.py`. -/
abbrev PyDict := List (String × EntryVal)

/-- Field lookup in a record: Python `d[key]`, with a missing key (Python
`KeyError`) modelled as `none`. -/
def dlookup (k : String) : PyDict → Option EntryVal
  | [] => none
  | (k2, v) :: rest => if k2 = k then some v else dlookup k rest

/-- Display of a field value inside a formatted message. -/
def showVal : EntryVal → String
  | .vstr s => s
  | .vnat n => toString n

/-- Per-file success record with the field set actually consumed by
`process_uploaded_files` in `src/app.py` (lines 140–141), which indexes each
success entry with the keys `filename`, `chunks` and `pages`. -/
def mkSuccessEntry (filename : String) (pages chunks : Nat) : PyDict :=
  [("filename", .vstr filename), ("pages", .vnat pages), ("chunks", .vnat chunks)]

/-- Record shape following the words of the spec (§3, IngestionResult)
verbatim: a success is `{filename, page_count, chunk_count}`.  Stated only for
comparison with `mkSuccessEntry`, which follows the consumer in
`src/app.py`. -/
def specSuccessEntry (filename : String) (pages chunks : Nat) : PyDict :=
  [("filename", .vstr filename), ("page_count", .vnat pages),
   ("chunk_count", .vnat chunks)]

/-- Embedded from `src/app.py` line 141: the success message shown for each
success entry, an f-string interpolating the record fields `filename`,
`chunks` and `pages` in that order; a missing key is a Python `KeyError`,
modelled as `none`. -/
def renderSuccessLine (d : PyDict) : Option String := do
  let f ← dlookup "filename" d
  let c ← dlookup "chunks" d
  let p ← dlookup "pages" d
  some (showVal f ++ ": " ++ showVal c ++ " chunks from " ++ showVal p ++ " pages")

/-- Modelled from the spec (§4.6, §6): the aggregate result
`{success: [...], errors: [...]}` of a batch ingestion call; error entries are
the message strings rendered by `src/app.py` (lines 144–152). -/
structure ProcessResults where
  success : List PyDict
  errors : List String
deriving DecidableEq

/-- Page count of a successfully ingested file: the number of distinct pages
its chunks came from. -/
def pageCount (chunkPages : List (String × Nat)) : Nat :=
  ((chunkPages.map Prod.snd).dedup).length

/-- Modelled from the spec (§4.6): the chunks built for one successfully
ingested file — ingestion output (chunk text with page number) combined with
the embedding of each chunk text. -/
def mkChunks (f : PDFFile) (embed : String → List ℚ)
    (cps : List (String × Nat)) : List Chunk :=
  cps.enum.map (fun ip => ⟨ip.1, ip.2.1, f.filename, ip.2.2, ip.1, embed ip.2.1⟩)

/-- Modelled from the spec (§4.1, §4.6): `process_files` runs ingestion
(parameter `ingest`, an opaque capability returning chunk texts with page
numbers or an `IngestionError` message), then embedding, then store insertion
for each file, aggregating per-file results; one file failing does not block
the others. -/
def process_files (ingest : PDFFile → Except String (List (String × Nat)))
    (embed : String → List ℚ) :
    List PDFFile → VectorStore → ProcessResults × VectorStore
  | [], vs => (⟨[], []⟩, vs)
  | f :: rest, vs =>
    match ingest f with
    | .ok cps =>
        let r := process_files ingest embed rest
          { vs with chunks := vs.chunks ++ mkChunks f embed cps }
        (⟨mkSuccessEntry f.filename (pageCount cps) cps.length :: r.1.success,
          r.1.errors⟩, r.2)
    | .error msg =>
        let r := process_files ingest embed rest vs
        (⟨r.1.success, (f.filename ++ ": " ++ msg) :: r.1.errors⟩, r.2)

/-- Per-file result selector for successes. -/
def successOf (ingest : PDFFile → Except String (List (String × Nat)))
    (f : PDFFile) : Option PyDict :=
  match ingest f with
  | .ok cps => some (mkSuccessEntry f.filename (pageCount cps) cps.length)
  | .error _ => none

/-- Per-file result selector for errors. -/
def errorOf (ingest : PDFFile → Except String (List (String × Nat)))
    (f : PDFFile) : Option String :=
  match ingest f with
  | .ok _ => none
  | .error m => some (f.filename ++ ": " ++ m)

/-- The aggregated batch results are exactly the per-file outcomes, in batch
order, independent of the store state threaded through the batch. -/
theorem process_files_results_eq (ingest : PDFFile → Except String (List (String × Nat)))
    (embed : String → List ℚ) (files : List PDFFile) :
    ∀ vs : VectorStore,
      (process_files ingest embed files vs).1.success = files.filterMap (successOf ingest) ∧
        (process_files ingest embed files vs).1.errors = files.filterMap (errorOf ingest) := by
  induction files with
  | nil => intro vs; simp [process_files]
  | cons f rest ih =>
      intro vs
      rcases hf : ingest f with m | cps
      · simpa [process_files, hf, List.filterMap_cons, successOf, errorOf] using
          ih vs
      · simpa [process_files, hf, List.filterMap_cons, successOf, errorOf] using
          ih { vs with chunks := vs.chunks ++ mkChunks f embed cps }

/-- A `filterMap` whose function hits on every element preserves the length. -/
theorem length_filterMap_of_isSome {α β : Type} (g : α → Option β) :
    ∀ l : List α, (∀ a ∈ l, (g a).isSome) → (l.filterMap g).length = l.length := by
  intro l
  induction l with
  | nil => intro _; rfl
  | cons a as ih =>
      intro h
      rcases hg : g a with _ | b
      · have := h a (List.mem_cons_self a as)
        rw [hg] at this
        cases this
      · simp [List.filterMap_cons, hg,
          ih (fun x hx => h x (List.mem_cons_of_mem a hx))]

/-- C4: for every batch containing exactly one corrupt file (every file of the
prefix `as` and suffix `bs` ingests successfully, `bad` fails), the batch
yields exactly one error entry, naming the corrupt file; the success entries
are exactly those of the batch with the corrupt file removed (so the other
files are neither aborted nor altered); and every other file yields a success
entry — in particular a batch of 3 files whose second file is corrupt yields
exactly 2 success entries and 1 error entry. -/
theorem one_corrupt_file_does_not_abort_batch
    (ingest : PDFFile → Except String (List (String × Nat)))
    (embed : String → List ℚ) (as bs : List PDFFile) (bad : PDFFile)
    (m : String) (vs : VectorStore)
    (hbad : ingest bad = .error m)
    (hok : ∀ f ∈ as ++ bs, ∃ cps, ingest f = .ok cps) :
    (process_files ingest embed (as ++ bad :: bs) vs).1.errors =
        [bad.filename ++ ": " ++ m] ∧
      (process_files ingest embed (as ++ bad :: bs) vs).1.success =
        (process_files ingest embed (as ++ bs) vs).1.success ∧
      (process_files ingest embed (as ++ bs) vs).1.success.length =
        as.length + bs.length := by
  have hsucc_ok : ∀ f ∈ as ++ bs, (successOf ingest f).isSome := by
    intro f hf
    obtain ⟨cps, hc⟩ := hok f hf
    simp [successOf, hc]
  have herr_none : ∀ f ∈ as ++ bs, errorOf ingest f = none := by
    intro f hf
    obtain ⟨cps, hc⟩ := hok f hf
    simp [errorOf, hc]
  obtain ⟨hs_full, he_full⟩ := process_files_results_eq ingest embed (as ++ bad :: bs) vs
  obtain ⟨hs_ab, _⟩ := process_files_results_eq ingest embed (as ++ bs) vs
  refine ⟨?_, ?_, ?_⟩
  · rw [he_full, List.filterMap_append, List.filterMap_cons]
    have ha : as.filterMap (errorOf ingest) = [] :=
      List.filterMap_eq_nil_iff.mpr
        (fun f hf => herr_none f (List.mem_append_left _ hf))
    have hb : bs.filterMap (errorOf ingest) = [] :=
      List.filterMap_eq_nil_iff.mpr
        (fun f hf => herr_none f (List.mem_append_right _ hf))
    simp [ha, hb, errorOf, hbad]
  · rw [hs_full, hs_ab, List.filterMap_append, List.filterMap_append,
      List.filterMap_cons]
    simp [successOf, hbad]
  · rw [hs_ab, length_filterMap_of_isSome (successOf ingest) (as ++ bs) hsucc_ok,
      List.length_append]

/-- First witness file. -/
def wFile1 : PDFFile := ⟨"%PDF-1 good one", "f1.pdf"⟩

/-- Second witness file — the corrupt one. -/
def wFile2 : PDFFile := ⟨"garbage", "f2.pdf"⟩

/-- Third witness file. -/
def wFile3 : PDFFile := ⟨"%PDF-1 good two", "f3.pdf"⟩

/-- Witness ingestion capability: file 2 is corrupt, the rest ingest to one
chunk on page 1. -/
def ingestW (f : PDFFile) : Except String (List (String × Nat)) :=
  if f.filename = "f2.pdf" then .error "corrupt PDF" else .ok [("some text", 1)]

/-- Witness embedding capability: a constant two-dimensional vector. -/
def embedW (_t : String) : List ℚ := [1, 0]

/-- Witness for C4: the concrete 3-file batch whose second file is corrupt
yields exactly 1 error entry and exactly 2 success entries. -/
theorem one_corrupt_file_does_not_abort_batch_witness :
    (process_files ingestW embedW ([wFile1] ++ wFile2 :: [wFile3]) ⟨2, []⟩).1.errors =
        ["f2.pdf" ++ ": " ++ "corrupt PDF"] ∧
      (process_files ingestW embedW ([wFile1] ++ wFile2 :: [wFile3]) ⟨2, []⟩).1.success.length = 2 := by
  have h := one_corrupt_file_does_not_abort_batch ingestW embedW [wFile1] [wFile3]
    wFile2 "corrupt PDF" ⟨2, []⟩ (by rfl)
    (by
      intro f hf
      simp only [List.cons_append, List.nil_append, List.mem_cons,
        List.not_mem_nil, or_false] at hf
      rcases hf with rfl | rfl
      · exact ⟨[("some text", 1)], rfl⟩
      · exact ⟨[("some text", 1)], rfl⟩)
  exact ⟨h.1, by rw [h.2.1]; exact h.2.2⟩

/-- Modelled from the spec (§4.4): outcome of one LLM Provider call — either
generated text or a `GenerationError` message. -/
inductive GenOutcome where
  | success : String → GenOutcome
  | failure : String → GenOutcome
deriving DecidableEq

/-- Modelled from the spec (§6): the structured result of `generate_response`,
`{response, similar_documents, error}`. -/
structure QueryResult where
  response : String
  similar_documents : List (Chunk × ℚ)
  error : Bool
deriving DecidableEq

/-- Modelled from the spec (§4.4): the safe fallback message used for the
error-marked assistant turn when generation fails. -/
def fallbackMessage : String :=
  "Sorry, something went wrong while generating a response. Please try again."

/-- Modelled from the spec (§4.6 `answer` and §7): the query path — embed the
question, retrieve the top-K similar chunks, invoke generation, and record
both the user turn and the assistant turn before returning the answer with
the retrieved-chunk metadata.  A `GenerationError` from the LLM Provider
(parameter `llm`) is converted into an error-marked assistant turn carrying
`fallbackMessage` and a structured result with `error = true`; the only
`Except.error` this function can return is `NoActiveConversationError`, so a
generation failure never escapes as an exception. -/
def generate_response (sim : List ℚ → List ℚ → ℚ) (embedQ : String → List ℚ)
    (llm : String → List Chunk → GenOutcome) (topK : Nat) (ts : String)
    (vs : VectorStore) (cm : CMState) (q : String) :
    Except String (QueryResult × CMState) := do
  let retrieved := VectorStore.search sim vs (embedQ q) topK
  let cm1 ← ConvManager.record_turn cm ⟨.user, q, ts, none, false⟩
  match llm q (retrieved.map Prod.fst) with
  | .success text =>
      let cm2 ← ConvManager.record_turn cm1
        ⟨.assistant, text, ts, some (retrieved.map (fun r => r.1.id)), false⟩
      return (⟨text, retrieved, false⟩, cm2)
  | .failure _ =>
      let cm2 ← ConvManager.record_turn cm1
        ⟨.assistant, fallbackMessage, ts, none, true⟩
      return (⟨fallbackMessage, retrieved, true⟩, cm2)

/-- C5: for every query on which the LLM Provider fails with a
`GenerationError`, the orchestrator still returns `Except.ok` (the failure
never propagates as an exception), the structured result carries
`error = true` with the fallback message, and the active conversation gains a
user turn followed by an assistant turn marked `is_error = true`. -/
theorem generation_failure_yields_error_turn (sim : List ℚ → List ℚ → ℚ)
    (embedQ : String → List ℚ) (llm : String → List Chunk → GenOutcome)
    (topK : Nat) (ts : String) (vs : VectorStore) (cm : CMState)
    (q : String) (conv : Conversation) (m : String)
    (hact : cm.active = some conv)
    (hllm : llm q ((VectorStore.search sim vs (embedQ q) topK).map Prod.fst) =
      .failure m) :
    generate_response sim embedQ llm topK ts vs cm q =
      .ok (⟨fallbackMessage, VectorStore.search sim vs (embedQ q) topK, true⟩,
        { cm with active := some { conv with turns := conv.turns ++
          [⟨.user, q, ts, none, false⟩,
           ⟨.assistant, fallbackMessage, ts, none, true⟩] } }) := by
  simp [generate_response, ConvManager.record_turn, hact, hllm, bind,
    Except.bind, Functor.map, Except.map, pure, Except.pure]

/-- Witness LLM Provider that always fails with a `GenerationError`. -/
def llmFailW (_q : String) (_ctx : List Chunk) : GenOutcome :=
  .failure "provider unavailable"

/-- Witness for C5 at a concrete failing provider, one-turn active
conversation and two-chunk store. -/
theorem generation_failure_yields_error_turn_witness :
    generate_response dotScore embedW llmFailW 3 "2026-10-12T01:00:00"
        ⟨2, [sampleChunk, sampleChunk2]⟩ (CMState.mk (some sampleConv) []) "What" =
      .ok (⟨fallbackMessage,
            VectorStore.search dotScore ⟨2, [sampleChunk, sampleChunk2]⟩
              (embedW "What") 3, true⟩,
        CMState.mk (some ⟨7,
          [sampleTurn,
           ⟨.user, "What", "2026-10-12T01:00:00", none, false⟩,
           ⟨.assistant, fallbackMessage, "2026-10-12T01:00:00", none, true⟩],
          "2026-10-12T00:00:00"⟩) []) :=
  generation_failure_yields_error_turn dotScore embedW llmFailW 3
    "2026-10-12T01:00:00" ⟨2, [sampleChunk, sampleChunk2]⟩
    (CMState.mk (some sampleConv) []) "What" sampleConv "provider unavailable"
    rfl rfl

/-- C3 counterexample: a success record carrying exactly the field set the
claim states — `filename`, `page_count`, `chunk_count` — makes the consumer
in `src/app.py` line 141 fail (the lookups of `chunks` and `pages` raise
`KeyError`, modelled as `none`), and the field list of the record the
pipeline actually produces is not the claimed one. -/
theorem success_fields_claim_counterexample :
    renderSuccessLine (specSuccessEntry "a.pdf" 2 5) = none ∧
      (mkSuccessEntry "a.pdf" 2 5).map Prod.fst ≠
        ["filename", "page_count", "chunk_count"] := by
  exact ⟨rfl, by decide⟩

/-- C3 (amended): every success entry produced for a processed file is a
record with exactly the fields `filename`, `pages` and `chunks` — the page
count under key `pages` and the chunk count under key `chunks` — and the
consumer in `src/app.py` line 141 renders it successfully. -/
theorem success_entry_fields_match_consumer (f : String) (p c : Nat) :
    (mkSuccessEntry f p c).map Prod.fst = ["filename", "pages", "chunks"] ∧
      renderSuccessLine (mkSuccessEntry f p c) =
        some (f ++ ": " ++ toString c ++ " chunks from " ++ toString p ++ " pages") := by
  exact ⟨rfl, rfl⟩

/-- Embedded from `src/app.py` (session state): the piece of
`st.session_state` that `process_uploaded_files` touches. -/
structure UIState where
  processing_status : String
deriving DecidableEq

/-- Observable outcome of one `process_uploaded_files` call: the returned
boolean, the final session state, and whether the chatbot was invoked. -/
structure ProcessCallOutcome where
  returned : Bool
  state : UIState
  chatbotCalled : Bool
deriving DecidableEq

/-- Embedded from `src/app.py` (lines 124–158), `process_uploaded_files`:
the guard `if not uploaded_files: return False` fires for a missing
(`None`, modelled `none`) or empty argument before the status is touched and
before the chatbot is called; otherwise the chatbot call
`process_uploaded_pdfs` (the total parameter `chatbot`, so the `except`
branch is unreachable in this model) decides the branch: a truthy
(non-empty) success list sets the processed-count status and returns `True`,
else the status becomes `Processing failed` and the result is `False`. -/
def process_uploaded_files (chatbot : List PDFFile → ProcessResults)
    (st : UIState) (uploaded : Option (List PDFFile)) : ProcessCallOutcome :=
  match uploaded with
  | none => ⟨false, st, false⟩
  | some [] => ⟨false, st, false⟩
  | some files =>
      let results := chatbot files
      if results.success.isEmpty then
        ⟨false, ⟨"Processing failed"⟩, true⟩
      else
        ⟨true,
          ⟨"Processed " ++ toString results.success.length ++ " files successfully"⟩,
          true⟩

/-- C9: for every missing or empty uploaded-files argument,
`process_uploaded_files` returns `False`, leaves the processing status
untouched, and never invokes the chatbot. -/
theorem process_uploaded_files_falsy_guard (chatbot : List PDFFile → ProcessResults)
    (st : UIState) (uploaded : Option (List PDFFile))
    (h : uploaded = none ∨ uploaded = some []) :
    process_uploaded_files chatbot st uploaded = ⟨false, st, false⟩ := by
  rcases h with rfl | rfl <;> rfl

/-- Witness for C9 with a missing (`None`) argument. -/
theorem process_uploaded_files_falsy_guard_witness :
    process_uploaded_files (fun _ => ⟨[], []⟩) ⟨"Ready"⟩ none =
      ⟨false, ⟨"Ready"⟩, false⟩ :=
  process_uploaded_files_falsy_guard (fun _ => ⟨[], []⟩) ⟨"Ready"⟩ none (Or.inl rfl)

/-- Embedded from `src/app.py` (lines 120–122): one entry of the
`similar_documents` metadata list as the renderer reads it — the `document`
text, the `filename` held under the nested `metadata` key (absent allowed,
defaulted to `Unknown`), and the `similarity` score. -/
structure DocEntry where
  document : String
  filename : Option String
  similarity : ℚ
deriving DecidableEq

/-- Embedded from `src/app.py` (lines 266–274): the metadata attached to a
displayed assistant message — the truthiness of its `error` flag and its
`similar_documents` list. -/
structure MsgMetadata where
  error : Bool
  similar_documents : List DocEntry
deriving DecidableEq

/-- Embedded from `src/app.py` (lines 121–122): the two lines written for one
source document — the filename (default `Unknown`) with the similarity, and
the first 200 characters of the document text followed by an ellipsis. -/
def renderDoc (d : DocEntry) : String × String :=
  (d.filename.getD "Unknown" ++ " (Similarity: " ++ toString d.similarity ++ ")",
   d.document.take 200 ++ "...")

/-- Embedded from `src/app.py` (lines 116–122) in `display_chat_message`: the
sources block is rendered only when `metadata` is present, its `error` flag
is falsy and `similar_documents` is truthy (non-empty); the slice `[:3]`
keeps at most the first three entries. -/
def renderedSources (metadata : Option MsgMetadata) : List (String × String) :=
  match metadata with
  | none => []
  | some m =>
      if m.error then []
      else if m.similar_documents.isEmpty then []
      else (m.similar_documents.take 3).map renderDoc

/-- C10: for every assistant-message metadata, source documents are rendered
only when the error flag is falsy (a truthy flag renders nothing), and at
most the first 3 entries of `similar_documents` are shown — with the error
flag falsy the rendering is exactly the first three entries. -/
theorem sources_hidden_on_error_and_capped_at_three (m : MsgMetadata) :
    (m.error = true → renderedSources (some m) = []) ∧
      (renderedSources (some m)).length ≤ 3 ∧
      (m.error = false →
        renderedSources (some m) = (m.similar_documents.take 3).map renderDoc) := by
  refine ⟨fun h => by simp [renderedSources, h], ?_, fun h => ?_⟩
  · by_cases he : m.error
    · simp [renderedSources, he]
    · by_cases hs : m.similar_documents.isEmpty
      · simp [renderedSources, he, hs]
      · simp [renderedSources, he, hs]
        try omega
  · by_cases hs : m.similar_documents.isEmpty
    · rw [List.isEmpty_iff] at hs
      simp [renderedSources, h, hs]
    · simp [renderedSources, h, hs]

/-- Sample source-document entry used by the C10 witness. -/
def sampleDoc : DocEntry :=
  ⟨"lorem ipsum", some "a.pdf", (1 : ℚ) / 2⟩

/-- Witness for C10: a truthy error flag renders no sources. -/
theorem sources_hidden_on_error_and_capped_at_three_witness :
    (MsgMetadata.mk true [sampleDoc]).error = true ∧
      renderedSources (some (MsgMetadata.mk true [sampleDoc])) = [] :=
  ⟨rfl, (sources_hidden_on_error_and_capped_at_three (MsgMetadata.mk true [sampleDoc])).1 rfl⟩
